import Mathlib

/-!
Verification of the provider abstraction and dispatch layer of the
`ai-backends` gateway, as a shallow embedding in Lean.

The embedding covers:
* a model of `JSON.parse` on JSON values (null, booleans, exact decimal
  numbers, strings with escapes, arrays, objects);
* the five fallback extraction strategies of `ZAIProvider.extractFromImage`
  (`src/services/registry.ts`) and the record it returns;
* `parseLmStudioStructuredResponse` (`src/services/lmstudio.ts`);
* the SSE streaming writer `writeTextStreamSSE` / `handleStreaming`
  (`src/utils/streamingHandler.ts`) as a trace of written events;
* the service registry (`src/services/registry.ts`), the environment-derived
  service configuration and `getPrimaryService` (`src/config/services.ts`),
  and the dispatch functions of `src/services/ai.ts`.
-/

namespace AIBackends

/-! ## JSON values -/

/-- Exact decimal number `mant * 10 ^ exp`, standing in for the numeric
result of `JSON.parse` (the JS float is not modelled; all inputs used in
this development are exactly representable). -/
structure JNum where
  mant : Int
  exp : Int
deriving Repr, DecidableEq

/-- A JavaScript value produced by `JSON.parse`. -/
inductive Json where
  | jnull
  | jbool (b : Bool)
  | jnum (n : JNum)
  | jstr (s : String)
  | jarr (elems : List Json)
  | jobj (members : List (String × Json))
deriving Repr, Inhabited

/-! ## Character-level utilities

The JS string operations used by `extractFromImage` (regular expression
search, `trim`) are modelled on `List Char`. -/

/-- JSON / JS whitespace as used by the inputs here. -/
def wsChar (c : Char) : Bool :=
  [' ', '\t', '\n', '\r'].contains c

/-- Drop leading whitespace. -/
def dropWs (cs : List Char) : List Char :=
  cs.dropWhile (fun c => wsChar c)

/-- JS `String.prototype.trim`: strip whitespace on both ends. -/
def jsTrim (cs : List Char) : List Char :=
  ((dropWs cs).reverse.dropWhile (fun c => wsChar c)).reverse

/-- Index of the first occurrence of `pat` in `cs`, if any. -/
def firstOccur (pat : List Char) : List Char → Option Nat
  | [] => if pat = [] then some 0 else none
  | c :: rest =>
      if pat.isPrefixOf (c :: rest) then some 0
      else (firstOccur pat rest).map (· + 1)

/-- Index of the first character satisfying `p`, if any. -/
def firstCharIdx (p : Char → Bool) : List Char → Option Nat
  | [] => none
  | c :: rest => if p c then some 0 else (firstCharIdx p rest).map (· + 1)

/-- Index of the last character satisfying `p`, if any. -/
def lastCharIdx (p : Char → Bool) (cs : List Char) : Option Nat :=
  ((firstCharIdx p cs.reverse).map (fun i => cs.length - 1 - i))

/-- Substring from index `i` to index `j` inclusive. -/
def sliceIncl (cs : List Char) (i j : Nat) : List Char :=
  (cs.drop i).take (j + 1 - i)

/-! ## A model of `JSON.parse`

Fuel-based recursive-descent parser.  `none` models a thrown
`SyntaxError`.  Trailing non-whitespace input is rejected, as
`JSON.parse` does. -/

/-- Decimal digit test (code points 48-57). -/
def digitChar (c : Char) : Bool := 48 ≤ c.toNat && c.toNat ≤ 57

/-- Accumulate the decimal value of a digit run onto `acc`. -/
def digitsAcc : List Char → Nat → Nat
  | [], acc => acc
  | c :: rest, acc => digitsAcc rest (10 * acc + (c.toNat - 48))

/-- Escape table for JSON strings: source character paired with the
decoded one. -/
def escTable : List (Char × Char) :=
  [('"', '"'), ('\\', '\\'), ('/', '/'), ('b', Char.ofNat 8),
   ('f', Char.ofNat 12), ('n', '\n'), ('r', '\r'), ('t', '\t')]

/-- One-character escapes accepted after a backslash in a JSON string. -/
def escChar (c : Char) : Option Char :=
  (escTable.find? (fun p => p.1 == c)).map (fun p => p.2)

/-- Body of a JSON string literal, after the opening quote.  Returns the
decoded characters and the input after the closing quote.  (The `\uXXXX`
escape is not used by any input in this development and is rejected.) -/
def jsonStrBody : List Char → Option (List Char × List Char)
  | [] => none
  | '"' :: rest => some ([], rest)
  | '\\' :: e :: rest =>
      match escChar e, jsonStrBody rest with
      | some d, some (tail, rem) => some (d :: tail, rem)
      | _, _ => none
  | c :: rest =>
      if c = '\\' then none
      else
        match jsonStrBody rest with
        | some (tail, rem) => some (c :: tail, rem)
        | none => none

/-- A JSON number token: optional minus sign, integer part, optional
fraction and exponent.  The mantissa is accumulated across the integer
and fraction digits in one pass; a dot not followed by a digit is left
in the remaining input (where the caller rejects it), matching
`JSON.parse`. -/
def jsonNum (cs : List Char) : Option (JNum × List Char) :=
  let (neg, body) : Bool × List Char :=
    match cs with
    | '-' :: tail => (true, tail)
    | _ => (false, cs)
  match body.span (fun c => digitChar c) with
  | ([], _) => none
  | (ip, afterInt) =>
      let (fp, afterFrac) :=
        match afterInt with
        | '.' :: tail =>
            (match tail.span (fun c => digitChar c) with
            | ([], _) => (([] : List Char), afterInt)
            | (ds, rr) => (ds, rr))
        | _ => ([], afterInt)
      let mag : Nat := digitsAcc fp (digitsAcc ip 0)
      let stem : JNum :=
        ⟨if neg then -(mag : Int) else (mag : Int), -(fp.length : Int)⟩
      match afterFrac with
      | 'e' :: tail | 'E' :: tail =>
          let (sgnE, etail) : Int × List Char :=
            match tail with
            | '+' :: more => (1, more)
            | '-' :: more => (-1, more)
            | _ => (1, tail)
          (match etail.span (fun c => digitChar c) with
          | ([], _) => none
          | (eds, rest) =>
              some (⟨stem.mant, stem.exp + sgnE * (digitsAcc eds 0 : Int)⟩, rest))
      | _ => some (stem, afterFrac)

mutual

/-- A single JSON value at the head of the input (leading whitespace
allowed), returning the remaining input. -/
def jsonVal : Nat → List Char → Option (Json × List Char)
  | 0, _ => none
  | fuel + 1, cs =>
      match dropWs cs with
      | [] => none
      | 'n' :: 'u' :: 'l' :: 'l' :: rest => some (.jnull, rest)
      | 't' :: 'r' :: 'u' :: 'e' :: rest => some (.jbool true, rest)
      | 'f' :: 'a' :: 'l' :: 's' :: 'e' :: rest => some (.jbool false, rest)
      | '"' :: rest =>
          match jsonStrBody rest with
          | some (body, rem) => some (.jstr (String.mk body), rem)
          | none => none
      | '[' :: rest =>
          (match dropWs rest with
          | ']' :: rem => some (.jarr [], rem)
          | _ =>
              match jsonElems fuel rest with
              | some (es, rem) => some (.jarr es, rem)
              | none => none)
      | '{' :: rest =>
          (match dropWs rest with
          | '}' :: rem => some (.jobj [], rem)
          | _ =>
              match jsonMembers fuel rest with
              | some (ms, rem) => some (.jobj ms, rem)
              | none => none)
      | other => (jsonNum other).map (fun (n, rem) => (.jnum n, rem))

/-- Comma-separated array elements up to the closing bracket. -/
def jsonElems : Nat → List Char → Option (List Json × List Char)
  | 0, _ => none
  | fuel + 1, cs =>
      match jsonVal fuel cs with
      | none => none
      | some (v, rem) =>
          match dropWs rem with
          | ',' :: more =>
              match jsonElems fuel more with
              | some (vs, rem2) => some (v :: vs, rem2)
              | none => none
          | ']' :: rem2 => some ([v], rem2)
          | _ => none

/-- Comma-separated object members up to the closing brace. -/
def jsonMembers : Nat → List Char → Option (List (String × Json) × List Char)
  | 0, _ => none
  | fuel + 1, cs =>
      match dropWs cs with
      | '"' :: rest =>
          (match jsonStrBody rest with
          | none => none
          | some (key, afterKey) =>
              match dropWs afterKey with
              | ':' :: afterColon =>
                  (match jsonVal fuel afterColon with
                  | none => none
                  | some (v, rem) =>
                      match dropWs rem with
                      | ',' :: more =>
                          (match jsonMembers fuel more with
                          | some (ms, rem2) => some ((String.mk key, v) :: ms, rem2)
                          | none => none)
                      | '}' :: rem2 => some ([(String.mk key, v)], rem2)
                      | _ => none)
              | _ => none)
      | _ => none

end

/-- Model of `JSON.parse` on a character list: parse one value and require
only whitespace after it.  `none` models the thrown `SyntaxError`. -/
def jsonParseChars (cs : List Char) : Option Json :=
  match jsonVal (cs.length + 1) cs with
  | some (v, rest) => if dropWs rest = [] then some v else none
  | none => none

/-- Model of `JSON.parse` on a string. -/
def jsonParse (s : String) : Option Json :=
  jsonParseChars s.data

/-! ## `ZAIProvider.extractFromImage`: the five parse strategies

From `src/services/registry.ts`.  Each strategy models one entry of the
`parseStrategies` array; `none` covers both a failed regular-expression
match (the strategy returns `null`) and a `JSON.parse` exception (caught
by the surrounding `try`). -/

/-- Strategy 1: extract from a triple-backtick block tagged `json`
(the pattern is lazy, so the block ends at the first closing fence) and
parse the trimmed body. -/
def fenceJsonStrategy (cs : List Char) : Option Json :=
  match firstOccur ("```json".data) cs with
  | none => none
  | some i =>
      let body := cs.drop (i + 7)
      match firstOccur ("```".data) body with
      | none => none
      | some j => jsonParseChars (jsTrim (body.take j))

/-- Strategy 2: extract from the first triple-backtick block of any
language and parse the trimmed body. -/
def fenceAnyStrategy (cs : List Char) : Option Json :=
  match firstOccur ("```".data) cs with
  | none => none
  | some i =>
      let body := cs.drop (i + 3)
      match firstOccur ("```".data) body with
      | none => none
      | some j => jsonParseChars (jsTrim (body.take j))

/-- Strategy 3: the greedy object pattern — the span from the first
opening brace to the last closing brace of the whole text. -/
def braceSpanStrategy (cs : List Char) : Option Json :=
  match firstCharIdx (fun c => c = '{') cs, lastCharIdx (fun c => c = '}') cs with
  | some i, some j => if i < j then jsonParseChars (sliceIncl cs i j) else none
  | _, _ => none

/-- Strategy 4: the greedy array pattern — the span from the first
opening bracket to the last closing bracket of the whole text. -/
def bracketSpanStrategy (cs : List Char) : Option Json :=
  match firstCharIdx (fun c => c = '[') cs, lastCharIdx (fun c => c = ']') cs with
  | some i, some j => if i < j then jsonParseChars (sliceIncl cs i j) else none
  | _, _ => none

/-- Strategy 5: parse the whole trimmed response. -/
def wholeTextStrategy (cs : List Char) : Option Json :=
  jsonParseChars (jsTrim cs)

/-- The `parseStrategies` array, in source order. -/
def parseStrategies : List (List Char → Option Json) :=
  [fenceJsonStrategy, fenceAnyStrategy, braceSpanStrategy, bracketSpanStrategy,
   wholeTextStrategy]

/-- The parsed JSON value `null` (a strategy returning it does not stop
the loop, because the source compares the result against JS `null`). -/
def isNullJson : Json → Bool
  | .jnull => true
  | _ => false

/-- The strategy loop of `extractFromImage`: take the first strategy that
neither fails nor produces `null`. -/
def runStrategies : List (List Char → Option Json) → List Char → Option Json
  | [], _ => none
  | s :: rest, cs =>
      match s cs with
      | some v => if isNullJson v then runStrategies rest cs else some v
      | none => runStrategies rest cs

/-- The extracted data for a raw response text. -/
def extractData (raw : String) : Option Json :=
  runStrategies parseStrategies raw.data

/-- The message stored in `parseError` when no strategy succeeds on a
non-blank response. -/
def couldNotExtractMsg : String :=
  "Could not extract valid JSON from the response. The raw text is shown below."

/-- The part of the `ZAIOCRResponse` record computed from the raw text
(the transport fields `model`, `provider`, `usage` are orthogonal and
omitted here). -/
structure ZAIOCRResult where
  rawText : String
  extractedData : Option Json
  parseError : Option String

/-- The post-transport tail of `ZAIProvider.extractFromImage`: run the
strategies and assemble the returned record.  Total — parse failure is a
result, never an exception. -/
def extractFromImageParse (rawText : String) : ZAIOCRResult :=
  let extracted := extractData rawText
  let parseError :=
    if extracted.isNone && jsTrim rawText.data ≠ [] then some couldNotExtractMsg
    else none
  ⟨rawText, extracted, parseError⟩

/-! ## `parseLmStudioStructuredResponse`

From `src/services/lmstudio.ts`.  The LM Studio structured path throws
(`Except.error`) on non-string content, on JSON parse failure and on
schema-validation failure; the Lean error strings keep the fixed stem of
the source messages (the source appends the underlying error text). -/

/-- Provider-native usage record of the chat-completion reply. -/
structure Usage where
  promptTokens : Nat
  completionTokens : Nat
  totalTokens : Nat
deriving Repr, DecidableEq

/-- One element of `completion.choices`.  `content = none` models an
absent or non-string `message.content`. -/
structure LMChoice where
  content : Option String
  finishReason : Option String

/-- The fields of the OpenAI chat completion that the parser reads. -/
structure LMCompletion where
  choices : List LMChoice
  usagePromptTokens : Option Nat
  usageCompletionTokens : Option Nat
  usageTotalTokens : Option Nat
  id : Option String
  model : Option String

/-- The record returned on success. -/
structure LMStructuredResult where
  object : Json
  finishReason : Option String
  usage : Usage
  id : Option String
  model : String

/-- Model of `parseLmStudioStructuredResponse`.  The Zod
`schema.safeParse` verdict is abstracted as the predicate
`schemaAccepts` on the parsed value. -/
def parseLmStudioStructuredResponse (completion : LMCompletion)
    (schemaAccepts : Json → Bool) (modelFallback : String) :
    Except String LMStructuredResult :=
  let choice := completion.choices.head?
  match choice.bind (fun c => c.content) with
  | none => .error "LM Studio returned non-string content for structured response"
  | some contentRaw =>
      match jsonParse contentRaw with
      | none => .error "Failed to parse assistant JSON content"
      | some parsed =>
          if schemaAccepts parsed then
            .ok { object := parsed
                  finishReason := choice.bind (fun c => c.finishReason)
                  usage := ⟨completion.usagePromptTokens.getD 0,
                            completion.usageCompletionTokens.getD 0,
                            completion.usageTotalTokens.getD 0⟩
                  id := completion.id
                  model := completion.model.getD modelFallback }
          else .error "Response failed schema validation"

/-! ## The validator algorithm as the spec words it

A second, clearly named rendering of §4.3 steps 1-3 of the spec, used
only to compare the source's strategy order against the spec's. -/

/-- Modelled from the spec: step 1 — strip a single leading/trailing
fenced code block (triple backticks, optional language tag) if present. -/
def specStripFence (cs : List Char) : List Char :=
  let t := jsTrim cs
  if ("```".data).isPrefixOf t && ("```".data).isSuffixOf t && 6 ≤ t.length then
    let core := (t.drop 3).take (t.length - 6)
    core.dropWhile (fun c => c.isAlpha)
  else t

/-- Index (relative to the start of the scan) of the closing bracket
balancing the opening one at the head of the input. -/
def balancedEnd (openc closec : Char) : List Char → Nat → Nat → Option Nat
  | [], _, _ => none
  | c :: rest, depth, idx =>
      if c = openc then balancedEnd openc closec rest (depth + 1) (idx + 1)
      else if c = closec then
        if depth = 1 then some idx
        else balancedEnd openc closec rest (depth - 1) (idx + 1)
      else balancedEnd openc closec rest depth (idx + 1)

/-- Modelled from the spec: step 3 — the first balanced brace or bracket
substring of the text. -/
def specFirstBalanced (t : List Char) : Option (List Char) :=
  match firstCharIdx (fun c => c = '{' || c = '[') t with
  | none => none
  | some i =>
      match t.drop i with
      | [] => none
      | c :: _ =>
          let cl := if c = '{' then '}' else ']'
          match balancedEnd c cl (t.drop i) 0 0 with
          | none => none
          | some j => some (sliceIncl t i (i + j))

/-- Modelled from the spec: §4.3 steps 1-3 in the spec's order — strip a
fence, attempt a direct parse, and only on failure parse the first
balanced brace/bracket substring. -/
def specValidatorExtract (raw : String) : Option Json :=
  let t := specStripFence raw.data
  match jsonParseChars (jsTrim t) with
  | some v => some v
  | none =>
      match specFirstBalanced t with
      | none => none
      | some sub => jsonParseChars sub

/-! ## Streaming writer

From `src/utils/streamingHandler.ts`.  A run of the writer is modelled as
the ordered trace of SSE events successfully written to the sink,
together with what the writer throws and how often `close()` is called.
Each `data:` payload becomes one constructor of `SSEEvent`. -/

/-- The canonical usage record embedded in the `done` event and in
non-streaming response envelopes. -/
structure UsageOut where
  input_tokens : Nat
  output_tokens : Nat
  total_tokens : Nat
deriving Repr, DecidableEq

/-- One SSE `data:` payload. -/
inductive SSEEvent where
  | initial (payload : String)
  | chunk (text : String) (provider : String) (model : String) (version : Option String)
  | done (usage : UsageOut) (provider : String) (model : String)
      (version : Option String) (extraDone : Option String)
  | error (message : String)
deriving Repr, DecidableEq

/-- Whether an event is a terminal (`done` or `error`) protocol event. -/
def SSEEvent.isTerminal : SSEEvent → Bool
  | .done _ _ _ _ _ => true
  | .error _ => true
  | _ => false

/-- The adapter result consumed by the writer.  `textStream` is the
fragment sequence: the fragments actually yielded, then an optional
exception raised by the iteration after them (`none` for normal
completion); `usage` is the awaited deferred usage value — absent
(`none`), a resolved record, or a rejection. -/
structure TextResult where
  textStream : Option (List String × Option String)
  usage : Option (Except String Usage)

/-- The `meta` argument of `writeTextStreamSSE`. -/
structure StreamMeta where
  provider : String
  model : String
  version : Option String

/-- The optional `options` argument of `writeTextStreamSSE`. -/
structure StreamOptions where
  initialEvent : Option String
  extraDone : Option String

/-- Outcome of one `writeTextStreamSSE` call: the events written before
returning or throwing, and the thrown error message if any. -/
structure WriterOutput where
  events : List SSEEvent
  thrown : Option String
deriving Repr, DecidableEq

/-- Model of `writeTextStreamSSE`.  A missing fragment sequence throws
before writing anything; a fragment-iteration exception interrupts after
the already-yielded chunks; the final `done` event is written only when
the awaited usage value is present. -/
def writeTextStreamSSE (result : TextResult) (meta : StreamMeta)
    (options : Option StreamOptions) (apiVersion : Option String) : WriterOutput :=
  match result.textStream with
  | none => ⟨[], some "Streaming not supported for this provider/model"⟩
  | some (chunks, iterError) =>
      let ver := match meta.version with
        | some v => some v
        | none => apiVersion
      let initEvents := match options.bind (fun o => o.initialEvent) with
        | some p => [SSEEvent.initial p]
        | none => []
      let chunkEvents := chunks.map (fun c => SSEEvent.chunk c meta.provider meta.model ver)
      match iterError with
      | some msg => ⟨initEvents ++ chunkEvents, some msg⟩
      | none =>
          match result.usage with
          | none => ⟨initEvents ++ chunkEvents, none⟩
          | some (.error msg) => ⟨initEvents ++ chunkEvents, some msg⟩
          | some (.ok u) =>
              ⟨initEvents ++ chunkEvents ++
                [SSEEvent.done ⟨u.promptTokens, u.completionTokens, u.totalTokens⟩
                  meta.provider meta.model ver (options.bind (fun o => o.extraDone))],
               none⟩

/-- Outcome of a `handleStreaming` run over the sink. -/
structure StreamRun where
  events : List SSEEvent
  closeCalls : Nat
deriving Repr, DecidableEq

/-- Model of `handleStreaming`: call the writer with
`{provider, model, version: apiVersion}` and no options; convert a
thrown error into one terminal error event (swallowing a failure of that
very write, modelled by `errorWriteFails`); call `close()` exactly once
in the `finally` block on every path. -/
def handleStreaming (result : TextResult) (provider model apiVersion : String)
    (errorWriteFails : Bool) : StreamRun :=
  let w := writeTextStreamSSE result ⟨provider, model, some apiVersion⟩ none none
  match w.thrown with
  | none => ⟨w.events, 1⟩
  | some msg =>
      if errorWriteFails then ⟨w.events, 1⟩
      else ⟨w.events ++ [SSEEvent.error msg], 1⟩

/-! ## Usage normalization of the vision / OCR dispatch

From `generateImageResponse` and `extractOCRText` in
`src/services/ai.ts`: `input_tokens` and `output_tokens` default to `0`
and `total_tokens` is their sum. -/

/-- The provider-native counters read by the vision/OCR normalization. -/
structure VisionNativeUsage where
  prompt_eval_count : Option Nat
  eval_count : Option Nat

/-- The usage record attached to the vision/OCR response envelope. -/
def normalizeVisionUsage (r : VisionNativeUsage) : UsageOut :=
  ⟨r.prompt_eval_count.getD 0, r.eval_count.getD 0,
   r.prompt_eval_count.getD 0 + r.eval_count.getD 0⟩

/-! ## Service registry

From `src/services/registry.ts`.  An adapter is modelled by its name and
whether it defines the optional `describeImage` operation; among the six
providers registered at module load, only `ollama` does. -/

/-- A provider adapter as the dispatch layer observes it. -/
structure AIProvider where
  name : String
  hasDescribeImage : Bool
deriving Repr, DecidableEq

/-- Adapter of `src/services/openai.ts` (no `describeImage`). -/
def openaiProvider : AIProvider := ⟨"openai", false⟩

/-- Adapter of `src/services/anthropic.ts` (no `describeImage`). -/
def anthropicProvider : AIProvider := ⟨"anthropic", false⟩

/-- Adapter of `src/services/ollama.ts` (defines `describeImage`). -/
def ollamaProvider : AIProvider := ⟨"ollama", true⟩

/-- Adapter of `src/services/openrouter.ts` (no `describeImage`). -/
def openrouterProvider : AIProvider := ⟨"openrouter", false⟩

/-- Adapter of `src/services/lmstudio.ts` (no `describeImage`). -/
def lmstudioProvider : AIProvider := ⟨"lmstudio", false⟩

/-- Adapter of the AI-gateway module (no `describeImage`). -/
def aigatewayProvider : AIProvider := ⟨"aigateway", false⟩

/-- The six `serviceRegistry.register(...)` calls at module load, in
source order; registration is unconditional and never consults the
`enabled` flag of the corresponding service configuration. -/
def registeredProviders : List AIProvider :=
  [openaiProvider, anthropicProvider, ollamaProvider, openrouterProvider,
   lmstudioProvider, aigatewayProvider]

/-- Model of `serviceRegistry.get`: map lookup by name (all registered
names are distinct, so first match equals map semantics). -/
def registryGet (name : String) : Option AIProvider :=
  registeredProviders.find? (fun p => p.name == name)

/-! ## Environment-derived service configuration

From `src/config/services.ts`.  Only the environment variables feeding
the `enabled` flags are modelled; the priority ranks are the source's
constants. -/

/-- The environment variables read by the `enabled` flags.  `none` means
undefined; `some` carries the string value (possibly empty). -/
structure Env where
  openaiApiKey : Option String
  anthropicApiKey : Option String
  ollamaEnabledVar : Option String
  ollamaBaseUrl : Option String
  openrouterApiKey : Option String
  lmstudioEnabledVar : Option String
  lmstudioBaseUrl : Option String
  aigatewayEnabledVar : Option String
  aigatewayBaseUrl : Option String
  googleApiKey : Option String
  basetenApiKey : Option String
  llmGatewayApiKey : Option String
deriving Repr, DecidableEq

/-- JS truthiness of `!!process.env.X`: defined and non-empty. -/
def truthyStr : Option String → Bool
  | some s => s ≠ ""
  | none => false

/-- The fields of a service configuration the selection logic reads. -/
structure ServiceConfig where
  name : String
  enabled : Bool
  priority : Nat
deriving Repr, DecidableEq

/-- OpenAI: enabled iff the API key is set. -/
def openaiConfig (env : Env) : ServiceConfig :=
  ⟨"OpenAI", truthyStr env.openaiApiKey, 1⟩

/-- Anthropic: enabled iff the API key is set. -/
def anthropicConfig (env : Env) : ServiceConfig :=
  ⟨"Anthropic", truthyStr env.anthropicApiKey, 2⟩

/-- Ollama: enabled iff `OLLAMA_ENABLED === "true"` or `OLLAMA_BASE_URL`
is defined (even empty). -/
def ollamaConfig (env : Env) : ServiceConfig :=
  ⟨"Ollama", env.ollamaEnabledVar == some "true" || env.ollamaBaseUrl.isSome, 3⟩

/-- OpenRouter: enabled iff the API key is set. -/
def openrouterConfig (env : Env) : ServiceConfig :=
  ⟨"OpenRouter", truthyStr env.openrouterApiKey, 4⟩

/-- LM Studio: enabled iff `LMSTUDIO_ENABLED === "true"` or
`LMSTUDIO_BASE_URL` is defined. -/
def lmstudioConfig (env : Env) : ServiceConfig :=
  ⟨"LMStudio", env.lmstudioEnabledVar == some "true" || env.lmstudioBaseUrl.isSome, 5⟩

/-- AI Gateway: enabled iff `AIGATEWAY_ENABLED === "true"` or
`AIGATEWAY_BASE_URL` is defined. -/
def aigatewayConfig (env : Env) : ServiceConfig :=
  ⟨"AIGateway", env.aigatewayEnabledVar == some "true" || env.aigatewayBaseUrl.isSome, 6⟩

/-- LlamaCpp: the `enabled` field is the literal `true`, independent of
the environment. -/
def llamacppConfig (_env : Env) : ServiceConfig :=
  ⟨"LlamaCpp", true, 7⟩

/-- Google: enabled iff the API key is set. -/
def googleConfig (env : Env) : ServiceConfig :=
  ⟨"Google", truthyStr env.googleApiKey, 8⟩

/-- Baseten: enabled iff the API key is set. -/
def basetenConfig (env : Env) : ServiceConfig :=
  ⟨"Baseten", truthyStr env.basetenApiKey, 9⟩

/-- LLM Gateway: enabled iff the API key is set. -/
def llmgatewayConfig (env : Env) : ServiceConfig :=
  ⟨"LLMGateway", truthyStr env.llmGatewayApiKey, 10⟩

/-- The `availableServices` array, in source order. -/
def availableServices (env : Env) : List ServiceConfig :=
  [openaiConfig env, anthropicConfig env, ollamaConfig env, openrouterConfig env,
   lmstudioConfig env, aigatewayConfig env, llamacppConfig env, googleConfig env,
   basetenConfig env, llmgatewayConfig env]

/-- The comparator `(a, b) => a.priority - b.priority` as an order. -/
def byPriority (a b : ServiceConfig) : Prop := a.priority ≤ b.priority

instance : DecidableRel byPriority := fun a b => Nat.decLe a.priority b.priority

instance : IsTotal ServiceConfig byPriority := ⟨fun a b => Nat.le_total a.priority b.priority⟩

instance : IsTrans ServiceConfig byPriority := ⟨fun _ _ _ => Nat.le_trans⟩

/-- Model of `getPrimaryService`: keep the enabled services, sort them by
ascending priority, and return the first (or `none`, the JS `null`). -/
def getPrimaryService (env : Env) : Option ServiceConfig :=
  (((availableServices env).filter (fun s => s.enabled)).insertionSort byPriority).head?

/-! ## Dispatch facade

From `src/services/ai.ts`.  Each dispatch function is modelled up to its
adapter invocation: the `Except.ok` value is the description of the one
adapter call the function performs (its transport work happens inside
that call), and an `Except.error` result is a throw before any adapter
or network activity. -/

/-- The adapter call performed by `generateImageResponse` /
`extractOCRText` on their success path.  In the source the TS defaults
are `service = 'ollama'`, `stream = false`, and `temperature = 0.3`
(vision) or `0` (OCR); callers pass them explicitly here. -/
structure VisionCall where
  service : String
  images : List String
  model : Option String
  stream : Bool
  temperature : Rat
  withOcrPrompt : Bool

/-- Model of `generateImageResponse` up to the `describeImage` call:
unknown provider and missing vision capability both throw before the
adapter is reached. -/
def generateImageResponse (images : List String) (service : String)
    (model : Option String) (stream : Bool) (temperature : Rat) :
    Except String VisionCall :=
  match registryGet service with
  | none => .error ("Provider not registered: " ++ service)
  | some p =>
      if p.hasDescribeImage then
        .ok ⟨service, images, model, stream, temperature, false⟩
      else .error ("Vision capabilities not supported for service: " ++ service)

/-- Model of `extractOCRText` up to the `describeImage` call; identical
gating, with the OCR instruction prompt added to the call. -/
def extractOCRText (images : List String) (service : String)
    (model : Option String) (stream : Bool) (temperature : Rat) :
    Except String VisionCall :=
  match registryGet service with
  | none => .error ("Provider not registered: " ++ service)
  | some p =>
      if p.hasDescribeImage then
        .ok ⟨service, images, model, stream, temperature, true⟩
      else .error ("Vision capabilities not supported for service: " ++ service)

/-- Modelled from the spec: the request `config` of the LLM request
schema (`src/schemas/v1/llm.ts` is not among the sources; §6 of the spec
gives `config = (provider, model?, stream, temperature?)`). -/
structure LLMConfig where
  provider : String
  model : Option String
  stream : Bool
  temperature : Option Rat
deriving DecidableEq

/-- Which adapter operation a dispatch function invokes. -/
inductive AdapterOp where
  | structured
  | text
  | textStream
deriving Repr, DecidableEq

/-- The adapter call performed by a chat dispatch function.
`temperaturePassed = none` means the call site omits the temperature
argument, so the adapter-side default (`0` for every registered
adapter's chat operations) applies. -/
structure AdapterCall where
  provider : String
  op : AdapterOp
  model : Option String
  temperaturePassed : Option Rat
deriving DecidableEq

/-- Model of `processStructuredOutputRequest` (its `temperature`
parameter, defaulted to `0` in TS, is forwarded to the adapter). -/
def processStructuredOutputRequest (config : LLMConfig) (temperature : Rat) :
    Except String AdapterCall :=
  match registryGet config.provider with
  | none => .error ("Unsupported service: " ++ config.provider)
  | some p => .ok ⟨p.name, .structured, config.model, some temperature⟩

/-- Model of `processTextOutputStreamRequest`: the adapter's streaming
operation is invoked with prompt and model only — no temperature. -/
def processTextOutputStreamRequest (config : LLMConfig) :
    Except String AdapterCall :=
  match registryGet config.provider with
  | none => .error ("Unsupported service: " ++ config.provider)
  | some p => .ok ⟨p.name, .textStream, config.model, none⟩

/-- Model of `processTextOutputRequest`: delegates to the streaming
variant when `config.stream`; otherwise invokes the adapter's text
operation with prompt and model only — no temperature. -/
def processTextOutputRequest (config : LLMConfig) : Except String AdapterCall :=
  if config.stream then processTextOutputStreamRequest config
  else
    match registryGet config.provider with
    | none => .error ("Unsupported service: " ++ config.provider)
    | some p => .ok ⟨p.name, .text, config.model, none⟩

/-- How the structured routes supply the temperature argument (e.g.
`src/routes/v1/outline.ts`): `config.temperature ?? 0`. -/
def structuredCallFromRoute (config : LLMConfig) : Except String AdapterCall :=
  processStructuredOutputRequest config (config.temperature.getD 0)

/-! ## Concrete instances used by the theorems -/

/-- First-match-wins combination of one strategy result with the rest of
the chain (the loop compares against JS `null`, so a parsed JSON `null`
does not stop it). -/
def pickNonNull (r : Option Json) (next : Option Json) : Option Json :=
  match r with
  | some v => if isNullJson v then next else some v
  | none => next

/-- An environment with every modelled variable undefined. -/
def envNone : Env :=
  ⟨none, none, none, none, none, none, none, none, none, none, none, none⟩

/-- A raw response that is one JSON string containing a brace pair:
`"hello \x7b\x7d world"` (quotes included). -/
def quotedBraces : String := "\"hello \x7b\x7d world\""

/-- A raw response holding two JSON objects side by side:
`\x7b"a":1\x7d \x7b"b":2\x7d`. -/
def twoObjects : String := "\x7b\"a\":1\x7d \x7b\"b\":2\x7d"

/-- A chat completion whose assistant content is the non-JSON text
`not json`. -/
def lmBadCompletion : LMCompletion :=
  ⟨[⟨some "not json", some "stop"⟩], none, none, none, none, none⟩

/-- A request config carrying an explicit temperature of `0.7`. -/
def tempConfig : LLMConfig := ⟨"lmstudio", none, false, some (7 / 10)⟩

/-! # Theorems -/

/-- C1 counterexample: a streaming call whose fragment iteration
completes without an exception but whose result carries no usage value
ends after its chunk events with no terminal event at all — the final
event is a `chunk`, not a `done` with usage. -/
theorem c1_counterexample :
    (handleStreaming ⟨some (["a"], none), none⟩ "p" "m" "v1" false).events
      = [SSEEvent.chunk "a" "p" "m" (some "v1")]
    ∧ SSEEvent.isTerminal (SSEEvent.chunk "a" "p" "m" (some "v1")) = false := by
  exact ⟨rfl, rfl⟩

/-- C1 (amended): the stream ends with exactly one terminal event —
`done` with the usage record on success, `error` on failure — except
when iteration completes and the result carries no usage value, in which
case no terminal event is written and the stream is only its chunks.
The five cases: success with usage, iteration failure, usage-await
failure, success without usage, and a result with no fragment sequence
at all. -/
theorem c1_terminal_event_cases (chunks : List String)
    (provider model apiVersion msg : String) (u : Usage) :
    (handleStreaming ⟨some (chunks, none), some (.ok u)⟩ provider model apiVersion false).events
      = chunks.map (fun c => SSEEvent.chunk c provider model (some apiVersion))
        ++ [SSEEvent.done ⟨u.promptTokens, u.completionTokens, u.totalTokens⟩
              provider model (some apiVersion) none]
    ∧ (handleStreaming ⟨some (chunks, some msg), none⟩ provider model apiVersion false).events
      = chunks.map (fun c => SSEEvent.chunk c provider model (some apiVersion))
        ++ [SSEEvent.error msg]
    ∧ (handleStreaming ⟨some (chunks, none), some (.error msg)⟩ provider model apiVersion false).events
      = chunks.map (fun c => SSEEvent.chunk c provider model (some apiVersion))
        ++ [SSEEvent.error msg]
    ∧ (handleStreaming ⟨some (chunks, none), none⟩ provider model apiVersion false).events
      = chunks.map (fun c => SSEEvent.chunk c provider model (some apiVersion))
    ∧ (handleStreaming ⟨none, none⟩ provider model apiVersion false).events
      = [SSEEvent.error "Streaming not supported for this provider/model"] := by
  refine ⟨?_, ?_, ?_, ?_, ?_⟩ <;> simp [handleStreaming, writeTextStreamSSE]

/-- C2 counterexample: in an environment without `OPENAI_API_KEY` the
OpenAI descriptor has `enabled = false`, yet the registry still returns
the OpenAI adapter and the text dispatch invokes it. -/
theorem c2_counterexample :
    (openaiConfig envNone).enabled = false
    ∧ registryGet "openai" = some openaiProvider
    ∧ processTextOutputRequest ⟨"openai", none, false, none⟩
        = Except.ok ⟨"openai", AdapterOp.text, none, none⟩ := by
  exact ⟨rfl, rfl, rfl⟩

/-- C2 (amended): registration never consults the `enabled` flag —
lookup succeeds exactly for the six unconditionally registered names
(so a disabled built-in provider can still be dispatched to), and for
every other name, `llamacpp` and `google` included, lookup returns
absent and the dispatch functions throw before invoking any adapter. -/
theorem c2_registry_by_name (name : String) :
    (registryGet name = none
      ↔ name ∉ ["openai", "anthropic", "ollama", "openrouter", "lmstudio", "aigateway"])
    ∧ (registryGet name = none →
        (∀ mo st te, processTextOutputRequest ⟨name, mo, st, te⟩
            = Except.error ("Unsupported service: " ++ name))
        ∧ (∀ imgs mo st te, generateImageResponse imgs name mo st te
            = Except.error ("Provider not registered: " ++ name))) := by
  constructor
  · constructor
    · intro h hmem
      fin_cases hmem <;> exact absurd h (by decide)
    · intro h
      have hne : name ≠ "openai" ∧ name ≠ "anthropic" ∧ name ≠ "ollama"
          ∧ name ≠ "openrouter" ∧ name ≠ "lmstudio" ∧ name ≠ "aigateway" := by
        refine ⟨?_, ?_, ?_, ?_, ?_, ?_⟩ <;> intro he <;> exact h (by rw [he]; decide)
      obtain ⟨h1, h2, h3, h4, h5, h6⟩ := hne
      rw [registryGet, List.find?_eq_none]
      intro x hx
      fin_cases hx
      · exact fun hbeq => h1 (eq_of_beq hbeq).symm
      · exact fun hbeq => h2 (eq_of_beq hbeq).symm
      · exact fun hbeq => h3 (eq_of_beq hbeq).symm
      · exact fun hbeq => h4 (eq_of_beq hbeq).symm
      · exact fun hbeq => h5 (eq_of_beq hbeq).symm
      · exact fun hbeq => h6 (eq_of_beq hbeq).symm
  · intro h
    constructor
    · intro mo st te
      cases hs : st <;>
        simp [processTextOutputRequest, processTextOutputStreamRequest, h]
    · intro imgs mo st te
      simp [generateImageResponse, h]

/-- C2 witness: the `google` provider name is in the `Provider` enum but
never registered, so lookup is absent and dispatch fails with the typed
error. -/
theorem c2_registry_by_name_witness :
    registryGet "google" = none
    ∧ processTextOutputRequest ⟨"google", none, false, none⟩
        = Except.error ("Unsupported service: " ++ "google") := by
  have h := c2_registry_by_name "google"
  have hnone : registryGet "google" = none := by decide
  exact ⟨hnone, (h.2 hnone).1 none false none⟩

/-- C3 counterexample: on the raw text `"hello \x7b\x7d world"` (a single
JSON string) the source's strategy chain returns the empty object found
by the greedy brace pattern, while the spec's order (direct parse before
substring search) returns the string — so the code does not apply the
spec's strategy order. -/
theorem c3_counterexample :
    extractData quotedBraces = some (Json.jobj [])
    ∧ specValidatorExtract quotedBraces = some (Json.jstr "hello \x7b\x7d world")
    ∧ Json.jobj [] ≠ Json.jstr "hello \x7b\x7d world" := by
  refine ⟨rfl, rfl, ?_⟩
  intro h
  exact Json.noConfusion h

/-- C3 (amended): the extraction tries, in order, a `json`-tagged fence,
any fence, the greedy brace span (first `\x7b` to last `\x7d`), the
greedy bracket span, and a direct parse of the whole text last, first
non-null success winning; the greedy span is not the spec's "first
balanced substring" (on two adjacent objects the chain finds nothing
while the spec's algorithm parses the first), and the direct parse is
attempted last, not before the substring search. -/
theorem c3_strategy_order (raw : String) :
    extractData raw =
      pickNonNull (fenceJsonStrategy raw.data)
        (pickNonNull (fenceAnyStrategy raw.data)
          (pickNonNull (braceSpanStrategy raw.data)
            (pickNonNull (bracketSpanStrategy raw.data)
              (pickNonNull (wholeTextStrategy raw.data) none))))
    ∧ extractData quotedBraces = some (Json.jobj [])
    ∧ wholeTextStrategy quotedBraces.data = some (Json.jstr "hello \x7b\x7d world")
    ∧ extractData twoObjects = none
    ∧ specValidatorExtract twoObjects = some (Json.jobj [("a", Json.jnum ⟨1, 0⟩)]) := by
  refine ⟨?_, rfl, rfl, rfl, rfl⟩
  unfold extractData runStrategies parseStrategies pickNonNull
  rfl

/-- C4 counterexample: the LM Studio structured path throws (rather than
returning a `valid=false` result) when the assistant content `not json`
fails to parse, refuting "never throws" for every adapter's structured
path. -/
theorem c4_counterexample :
    parseLmStudioStructuredResponse lmBadCompletion (fun _ => true) "model-x"
      = Except.error "Failed to parse assistant JSON content" := by
  rfl

/-- C4 (amended): on the ZAI image-extraction path, an input on which
every parse strategy fails yields a result record — the raw text, a null
`extractedData`, and a `parseError` message when the text is non-blank —
and never a thrown error; the LM Studio structured path instead throws
on parse failure. -/
theorem c4_parse_failure_is_result (raw : String) (h : extractData raw = none) :
    (extractFromImageParse raw).extractedData = none
    ∧ (extractFromImageParse raw).rawText = raw
    ∧ (jsTrim raw.data ≠ [] →
        (extractFromImageParse raw).parseError = some couldNotExtractMsg)
    ∧ (extractFromImageParse "not json").extractedData = none
    ∧ (extractFromImageParse "not json").parseError = some couldNotExtractMsg := by
  refine ⟨?_, rfl, ?_, rfl, rfl⟩
  · simp [extractFromImageParse, h]
  · intro hb
    simp [extractFromImageParse, h, hb]

/-- C4 witness: the input `not json` defeats every strategy and the
extraction returns the error-result record. -/
theorem c4_parse_failure_is_result_witness :
    extractData "not json" = none
    ∧ (extractFromImageParse "not json").extractedData = none
    ∧ (extractFromImageParse "not json").parseError = some couldNotExtractMsg := by
  have h : extractData "not json" = none := rfl
  exact ⟨h, (c4_parse_failure_is_result "not json" h).1,
         (c4_parse_failure_is_result "not json" h).2.2.2.2⟩

/-- C5 counterexample: the streaming writer copies the provider's
`totalTokens` verbatim into the `done` event; with native usage
`(promptTokens 10, completionTokens 5, totalTokens 99)` the produced
record is `(10, 5, 99)` although both counts are independently known and
sum to 15. -/
theorem c5_counterexample :
    (handleStreaming ⟨some ([], none), some (Except.ok ⟨10, 5, 99⟩)⟩ "p" "m" "v" false).events
      = [SSEEvent.done ⟨10, 5, 99⟩ "p" "m" (some "v") none]
    ∧ 10 + 5 ≠ 99 := by
  exact ⟨rfl, by decide⟩

/-- C5 (amended): the vision/OCR normalization maps
`(prompt_eval_count 10, eval_count 5)` to `(10, 5, 15)`, absent fields to
`(0, 0, 0)`, and always sets `total_tokens` to the sum; the streaming
writer's `done` event instead copies all three provider-native fields
verbatim, trusting the provider's own total. -/
theorem c5_usage_normalization :
    normalizeVisionUsage ⟨some 10, some 5⟩ = ⟨10, 5, 15⟩
    ∧ normalizeVisionUsage ⟨none, none⟩ = ⟨0, 0, 0⟩
    ∧ (∀ r : VisionNativeUsage,
        (normalizeVisionUsage r).total_tokens
          = (normalizeVisionUsage r).input_tokens + (normalizeVisionUsage r).output_tokens)
    ∧ (∀ (u : Usage) (chunks : List String) (provider model : String) (v : Option String),
        (writeTextStreamSSE ⟨some (chunks, none), some (.ok u)⟩
            ⟨provider, model, v⟩ none none).events.getLast?
          = some (SSEEvent.done ⟨u.promptTokens, u.completionTokens, u.totalTokens⟩
              provider model v none)) := by
  refine ⟨rfl, rfl, fun r => rfl, fun u chunks provider model v => ?_⟩
  cases v <;> simp [writeTextStreamSSE]

/-- C6: for every registered provider lacking the vision capability
(`describeImage` absent), both vision and OCR dispatch throw the typed
"Vision capabilities not supported" error; the error branch precedes the
adapter call, so no transport is ever invoked (the `ok` value is the one
adapter call a run performs). -/
theorem c6_capability_gate (service : String) (p : AIProvider)
    (hreg : registryGet service = some p) (hvision : p.hasDescribeImage = false)
    (images : List String) (model : Option String) (stream : Bool) (temp : Rat) :
    generateImageResponse images service model stream temp
      = Except.error ("Vision capabilities not supported for service: " ++ service)
    ∧ extractOCRText images service model stream temp
      = Except.error ("Vision capabilities not supported for service: " ++ service) := by
  rw [generateImageResponse, extractOCRText, hreg]
  simp [hvision]

/-- C6 witness: the registered OpenAI adapter lacks `describeImage`, and
vision dispatch to it fails fast with the typed error. -/
theorem c6_capability_gate_witness :
    registryGet "openai" = some openaiProvider
    ∧ openaiProvider.hasDescribeImage = false
    ∧ generateImageResponse [] "openai" none false 0
        = Except.error ("Vision capabilities not supported for service: " ++ "openai") := by
  have hreg : registryGet "openai" = some openaiProvider := by decide
  exact ⟨hreg, rfl, (c6_capability_gate "openai" openaiProvider hreg rfl [] none false 0).1⟩

/-- C7: a service returned by the primary selection is enabled and has
the lowest priority rank among all enabled services — it is never
disabled and never outranked by a strictly lower-rank enabled service. -/
theorem c7_primary_selection (env : Env) (s : ServiceConfig)
    (h : getPrimaryService env = some s) :
    s.enabled = true
    ∧ ∀ t ∈ availableServices env, t.enabled = true → s.priority ≤ t.priority := by
  rw [getPrimaryService] at h
  cases hs : ((availableServices env).filter (fun s => s.enabled)).insertionSort byPriority with
  | nil => rw [hs] at h; exact absurd h (by simp)
  | cons a rest =>
      rw [hs] at h
      simp only [List.head?_cons, Option.some.injEq] at h
      have hsorted : List.Sorted byPriority (a :: rest) := by
        rw [← hs]
        exact List.sorted_insertionSort byPriority _
      have hperm :
          List.Perm (a :: rest) ((availableServices env).filter (fun s => s.enabled)) := by
        rw [← hs]
        exact List.perm_insertionSort byPriority _
      rw [← h]
      constructor
      · have hIn : a ∈ (availableServices env).filter (fun s => s.enabled) :=
          hperm.subset (List.mem_cons_self a rest)
        exact (List.mem_filter.mp hIn).2
      · intro t ht hte
        have htl : t ∈ (availableServices env).filter (fun s => s.enabled) :=
          List.mem_filter.mpr ⟨ht, hte⟩
        have htin : t ∈ a :: rest := hperm.symm.subset htl
        rcases List.mem_cons.mp htin with h1 | h1
        · exact le_of_eq (by rw [h1])
        · exact List.rel_of_sorted_cons hsorted t h1

/-- C7 witness: with no environment variables set, the selection returns
the always-enabled LlamaCpp descriptor of rank 7, which is enabled. -/
theorem c7_primary_selection_witness :
    getPrimaryService envNone = some ⟨"LlamaCpp", true, 7⟩
    ∧ (⟨"LlamaCpp", true, 7⟩ : ServiceConfig).enabled = true := by
  have h : getPrimaryService envNone = some ⟨"LlamaCpp", true, 7⟩ := by decide
  exact ⟨h, (c7_primary_selection envNone ⟨"LlamaCpp", true, 7⟩ h).1⟩

/-- C8: a fragment sequence that yields two chunks and then raises makes
the handler write exactly `[chunk, chunk, error]` and call `close()`
exactly once; and even when writing the error event itself fails, the
`finally` block still calls `close()` exactly once. -/
theorem c8_error_after_two_chunks (c1 c2 msg provider model v : String) :
    (handleStreaming ⟨some ([c1, c2], some msg), none⟩ provider model v false).events
      = [SSEEvent.chunk c1 provider model (some v),
         SSEEvent.chunk c2 provider model (some v),
         SSEEvent.error msg]
    ∧ (handleStreaming ⟨some ([c1, c2], some msg), none⟩ provider model v false).closeCalls = 1
    ∧ (handleStreaming ⟨some ([c1, c2], some msg), none⟩ provider model v true).closeCalls = 1
    ∧ (handleStreaming ⟨some ([c1, c2], some msg), none⟩ provider model v true).events
      = [SSEEvent.chunk c1 provider model (some v),
         SSEEvent.chunk c2 provider model (some v)] := by
  refine ⟨?_, rfl, rfl, ?_⟩ <;> simp [handleStreaming, writeTextStreamSSE]

/-- C9 counterexample: a request config carrying temperature `0.7` is
dispatched on the text path with the temperature argument omitted — the
adapter receives no temperature and falls back to its default, so the
caller's override is not honored on every generation path. -/
theorem c9_counterexample :
    tempConfig.temperature = some (7 / 10)
    ∧ processTextOutputRequest tempConfig
        = Except.ok ⟨"lmstudio", AdapterOp.text, none, none⟩
    ∧ processTextOutputStreamRequest ⟨"lmstudio", none, true, some (7 / 10)⟩
        = Except.ok ⟨"lmstudio", AdapterOp.textStream, none, none⟩
    ∧ (none : Option Rat) ≠ some (7 / 10) := by
  refine ⟨rfl, rfl, rfl, ?_⟩
  intro h
  exact Option.noConfusion h

/-- C9 (amended): the structured dispatch forwards its temperature
argument to the adapter (and the structured routes fill it from
`config.temperature ?? 0`), but the text and streaming-text dispatch
functions never pass a temperature — the adapter call carries none and
the adapter-side default applies regardless of the config value. -/
theorem c9_temperature_forwarding (config : LLMConfig) (p : AIProvider)
    (hreg : registryGet config.provider = some p) (temp : Rat) :
    processStructuredOutputRequest config temp
      = Except.ok ⟨p.name, AdapterOp.structured, config.model, some temp⟩
    ∧ (config.temperature = some temp →
        structuredCallFromRoute config
          = Except.ok ⟨p.name, AdapterOp.structured, config.model, some temp⟩)
    ∧ (config.stream = false →
        processTextOutputRequest config
          = Except.ok ⟨p.name, AdapterOp.text, config.model, none⟩)
    ∧ processTextOutputStreamRequest config
      = Except.ok ⟨p.name, AdapterOp.textStream, config.model, none⟩ := by
  refine ⟨?_, ?_, ?_, ?_⟩
  · simp [processStructuredOutputRequest, hreg]
  · intro ht
    simp [structuredCallFromRoute, processStructuredOutputRequest, hreg, ht]
  · intro hs
    simp [processTextOutputRequest, hs, hreg]
  · simp [processTextOutputStreamRequest, hreg]

/-- C9 witness: the LM Studio provider is registered; dispatching the
temperature-carrying config exercises all three paths. -/
theorem c9_temperature_forwarding_witness :
    registryGet "lmstudio" = some lmstudioProvider
    ∧ processStructuredOutputRequest tempConfig (7 / 10)
        = Except.ok ⟨"lmstudio", AdapterOp.structured, none, some (7 / 10)⟩ := by
  have hreg : registryGet "lmstudio" = some lmstudioProvider := by decide
  exact ⟨hreg, (c9_temperature_forwarding tempConfig lmstudioProvider hreg (7 / 10)).1⟩

/-- C10: the primary-service selection never returns null: the LlamaCpp
descriptor's `enabled` flag is the constant `true` in every environment,
so the enabled set is non-empty and the null branch is unreachable. -/
theorem c10_primary_never_null (env : Env) :
    (getPrimaryService env).isSome = true := by
  rw [getPrimaryService]
  have hmem : llamacppConfig env ∈ (availableServices env).filter (fun s => s.enabled) := by
    refine List.mem_filter.mpr ⟨?_, rfl⟩
    simp [availableServices]
  have hmem2 : llamacppConfig env
      ∈ ((availableServices env).filter (fun s => s.enabled)).insertionSort byPriority :=
    (List.perm_insertionSort byPriority _).mem_iff.mpr hmem
  cases hs : ((availableServices env).filter (fun s => s.enabled)).insertionSort byPriority with
  | nil => rw [hs] at hmem2; exact absurd hmem2 (List.not_mem_nil _)
  | cons a rest => rfl

end AIBackends
